import Mathlib

/-!
Shallow embedding of `src/substack_mcp.py` (a Model Context Protocol server
for Substack), covering the parts of the program the claims of the specification
are about: the newsletter cache (`load_newsletter_cache`,
`save_newsletter_cache`), the newsletter-selection policy and fan-out search
of `search_across_substacks` / `search_single_newsletter`, and
`discover_popular_substacks`.

Modelling conventions:
* The external content client (`substack_api.Newsletter.search_posts` plus
  the per-post `get_metadata` calls) is an oracle
  `SearchClient : url → query → limit → Except String (List RawPost)`;
  `Except.error` stands for any exception raised while searching one
  newsletter.
* The cache file is a `CacheFile` state value: absent, present-but-unparsable
  (`json.load` raises), or present with a JSON document.  The Python `json`
  module is an external library; it is modelled at the document level
  (`json.dump` then `json.load` is the identity on JSON-representable
  values), so `CacheFile.stored` holds the parsed document directly.
  JSON documents are modelled by `PyJson`, covering the shapes relevant
  here (a list of strings, a string, a number, a flat object).
* Stateful operations are state transformers `CacheFile → α × CacheFile`.
* `asyncio.gather` returns results in task-submission order regardless of
  completion order; it is therefore embedded as an order-preserving `map`.
* Counts (`max_newsletters`, `limit`, ...) are natural numbers.
* Python `str.lower` is `pyLower` (character-wise lowering, adequate for the
  ASCII category names involved); Python truthiness of an optional string /
  list is non-emptiness of a present value.
-/

namespace SubstackMCP

/-- JSON documents as stored in the newsletter cache file. -/
inductive PyJson where
  | strList : List String → PyJson
  | str : String → PyJson
  | num : Int → PyJson
  | obj : List (String × String) → PyJson
deriving DecidableEq, Repr

/-- The on-disk state of `newsletter_cache.json`. -/
inductive CacheFile where
  | absent : CacheFile
  | corrupt : String → CacheFile
  | stored : PyJson → CacheFile
deriving DecidableEq, Repr

/-- `load_newsletter_cache` (src/substack_mcp.py:41-49): if the cache file
exists, try `json.load`; any parse failure yields `[]`; a missing file
yields `[]`.  Total: it never raises. -/
def load_newsletter_cache : CacheFile → PyJson
  | CacheFile.absent => PyJson.strList []
  | CacheFile.corrupt _ => PyJson.strList []
  | CacheFile.stored v => v

/-- `save_newsletter_cache` (src/substack_mcp.py:52-55): unconditionally
overwrite the whole cache file with `json.dump(newsletters)`; the prior
state is discarded. -/
def save_newsletter_cache (newsletters : List String) (_st : CacheFile) : CacheFile :=
  CacheFile.stored (PyJson.strList newsletters)

/-- The cache document as a string list.  The program only ever writes a
list of strings (`save_newsletter_cache` call sites), so on every state the
program itself can produce, the document is a `strList`; other documents
are mapped to `[]` here (in Python such a document would raise at the
slicing step, leaving the cache equally untouched). -/
def asStringList : PyJson → List String
  | PyJson.strList l => l
  | _ => []

/-- `POPULAR_NEWSLETTERS` (src/substack_mcp.py:27-38). -/
def POPULAR_NEWSLETTERS : List String :=
  ["https://stratechery.com",
   "https://www.platformer.news",
   "https://www.slowboring.com",
   "https://www.leandrorestrepo.com",
   "https://www.theverge.com",
   "https://tedgioia.substack.com",
   "https://sinocism.com",
   "https://noahpinion.substack.com",
   "https://astralcodexten.substack.com",
   "https://newsletter.pragmaticengineer.com"]

/-- A post as returned by the content client: its metadata dict may lack
`title` or `publication_date`, plus its URL. -/
structure RawPost where
  title : Option String
  publication_date : Option String
  url : String
deriving DecidableEq, Repr

/-- Metadata extraction with sentinel defaults
(src/substack_mcp.py:198-201): `metadata.get("title", "Untitled")`,
`metadata.get("publication_date", "Unknown date")`, `post.url`. -/
def postEntry (p : RawPost) : String × String × String :=
  (p.title.getD "Untitled", p.publication_date.getD "Unknown date", p.url)

/-- The external content client: newsletter URL, query, limit; an
`Except.error` models any exception raised while searching that
newsletter (including per-post metadata fetches). -/
def SearchClient : Type :=
  String → String → Nat → Except String (List RawPost)

/-- `search_single_newsletter` (src/substack_mcp.py:187-206): search one
newsletter; any exception is caught and yields `[]` (after logging);
otherwise each post maps to its `(title, date, url)` entry.  The `if not
search_results: return []` early return coincides with mapping over the
empty list. -/
def search_single_newsletter (client : SearchClient)
    (newsletter_url search_query : String) (limit : Nat) :
    List (String × String × String) :=
  match client newsletter_url search_query limit with
  | Except.error _ => []
  | Except.ok posts => posts.map postEntry

/-- Python truthiness of the `newsletters: Optional[List[str]]` argument:
`None` and `[]` are falsy. -/
def pyTruthyList : Option (List String) → Bool
  | none => false
  | some [] => false
  | some (_ :: _) => true

/-- The newsletter-selection policy of `search_across_substacks`
(src/substack_mcp.py:145-156): explicit non-empty list, else popular when
`popular_only`, else the loaded cache when non-empty, else popular; each
truncated to `max_newsletters`. -/
def selectNewsletters (newsletters : Option (List String)) (popular_only : Bool)
    (cached_newsletters : List String) (max_newsletters : Nat) : List String :=
  if pyTruthyList newsletters then
    (newsletters.getD []).take max_newsletters
  else if popular_only then
    POPULAR_NEWSLETTERS.take max_newsletters
  else if cached_newsletters.isEmpty then
    POPULAR_NEWSLETTERS.take max_newsletters
  else
    cached_newsletters.take max_newsletters

/-- The selection actually used by a `search_across_substacks` call on cache
state `st`. -/
def searchSelection (newsletters : Option (List String)) (popular_only : Bool)
    (max_newsletters : Nat) (st : CacheFile) : List String :=
  selectNewsletters newsletters popular_only
    (asStringList (load_newsletter_cache st)) max_newsletters

/-- Result compilation (src/substack_mcp.py:169-172): zip the selection with
the gathered per-newsletter results, keeping only newsletters whose result
list is non-empty. -/
def combineResults (sel : List String)
    (res : List (List (String × String × String))) :
    List (String × List (String × String × String)) :=
  (sel.zip res).filter (fun p => !p.2.isEmpty)

/-- The fan-out (src/substack_mcp.py:160-172): one
`search_single_newsletter` task per selected newsletter; `asyncio.gather`
returns the results in submission order, then they are combined. -/
def fanOutResults (client : SearchClient) (search_query : String)
    (sel : List String) (results_per_newsletter : Nat) :
    List (String × List (String × String × String)) :=
  combineResults sel
    (sel.map (fun u => search_single_newsletter client u search_query results_per_newsletter))

/-- An apostrophe, for the quoted query / category in output messages. -/
def sq : String := String.singleton (Char.ofNat 39)

/-- The no-results message of `search_across_substacks`
(src/substack_mcp.py:175). -/
def noResultsMsg (search_query : String) : String :=
  "No results found for " ++ sq ++ search_query ++ sq ++
    " across the specified Substack newsletters."

/-- The header line of a non-empty `search_across_substacks` result
(src/substack_mcp.py:178). -/
def searchHeader (search_query : String) (n : Nat) : String :=
  "Search results for " ++ sq ++ search_query ++ sq ++ " across " ++
    toString n ++ " Substack newsletters:\n\n"

/-- Per-post lines `"{i}. {title} - {date}\n   URL: {url}\n\n"`
(src/substack_mcp.py:182-183), numbered from `i`. -/
def formatPosts (i : Nat) : List (String × String × String) → String
  | [] => ""
  | (title, date, url) :: rest =>
      toString i ++ ". " ++ title ++ " - " ++ date ++ "\n   URL: " ++ url ++
        "\n\n" ++ formatPosts (i + 1) rest

/-- Per-newsletter groups `"## {url}\n\n"` followed by its posts
(src/substack_mcp.py:180-183). -/
def formatGroups : List (String × List (String × String × String)) → String
  | [] => ""
  | (url, posts) :: rest =>
      "## " ++ url ++ "\n\n" ++ formatPosts 1 posts ++ formatGroups rest

/-- `search_across_substacks` (src/substack_mcp.py:134-185) as a state
transformer on the cache file: select newsletters (reading the cache only as
the third policy), fan out, and either report no results or format the
groups.  The cache state is returned unchanged: the function contains no
`save_newsletter_cache` call. -/
def search_across_substacks (client : SearchClient) (search_query : String)
    (newsletters : Option (List String)) (max_newsletters : Nat)
    (results_per_newsletter : Nat) (popular_only : Bool) (st : CacheFile) :
    String × CacheFile :=
  let sel := searchSelection newsletters popular_only max_newsletters st
  let combined := fanOutResults client search_query sel results_per_newsletter
  let output :=
    if combined.isEmpty then noResultsMsg search_query
    else searchHeader search_query combined.length ++ formatGroups combined
  (output, st)

/-- Python `str.lower`, character-wise (the category names involved are
ASCII, where this agrees with Python). -/
def pyLower (s : String) : String :=
  String.mk (s.data.map Char.toLower)

/-- Python truthiness of the `category: Optional[str]` argument: `None` and
`""` are falsy. -/
def pyTruthyStr : Option String → Bool
  | none => false
  | some s => !(s == "")

/-- The `categories` dict of `discover_popular_substacks`
(src/substack_mcp.py:221-257), in insertion order. -/
def categories : List (String × List String) :=
  [("technology",
    ["https://stratechery.com",
     "https://www.platformer.news",
     "https://newsletter.pragmaticengineer.com",
     "https://www.theverge.com",
     "https://simonwillison.net"]),
   ("politics",
    ["https://www.slowboring.com",
     "https://sinocism.com",
     "https://taibbi.substack.com",
     "https://greenwald.substack.com",
     "https://theweek.com"]),
   ("science",
    ["https://astralcodexten.substack.com",
     "https://sciencebasedmedicine.substack.com",
     "https://davidrozado.substack.com",
     "https://rootsofprogress.org",
     "https://www.experimental-history.com"]),
   ("culture",
    ["https://tedgioia.substack.com",
     "https://www.persuasion.community",
     "https://erikhoel.substack.com",
     "https://freddiedeboer.substack.com",
     "https://www.readingsupremacy.com"]),
   ("economics",
    ["https://noahpinion.substack.com",
     "https://www.leandrorestrepo.com",
     "https://www.fullstackeconomics.com",
     "https://www.theovershoot.co",
     "https://www.readtpa.com"])]

/-- The known category keys (`category.lower() in categories`). -/
def categoriesKeys : List String :=
  categories.map Prod.fst

/-- Dict lookup `categories[category.lower()]`, only reached after the
membership check succeeded. -/
def lookupCategory (c : String) : List String :=
  ((categories.find? (fun p => p.1 == c)).map Prod.snd).getD []

/-- `all_newsletters` (src/substack_mcp.py:264-266): concatenation of all
category lists in dict order. -/
def allCategoryNewsletters : List String :=
  (categories.map Prod.snd).flatten

/-- `list(dict.fromkeys(l))` (src/substack_mcp.py:269): stable
de-duplication keeping first occurrences. -/
def dictFromKeys (seen : List String) : List String → List String
  | [] => []
  | x :: xs =>
      if seen.contains x then dictFromKeys seen xs
      else x :: dictFromKeys (x :: seen) xs

/-- The fallback message of `discover_popular_substacks` for a provided but
unknown category (src/substack_mcp.py:273). -/
def notFoundMsg (category : String) : String :=
  "No newsletters found for category " ++ sq ++ category ++ sq ++
    ". Here are some popular newsletters instead:\n\n"

/-- Numbered listing lines `"{i}. {url}\n"` (src/substack_mcp.py:281-282). -/
def formatNumbered (i : Nat) : List String → String
  | [] => ""
  | x :: xs => toString i ++ ". " ++ x ++ "\n" ++ formatNumbered (i + 1) xs

/-- The branch of `discover_popular_substacks` choosing the header message
and the newsletter list (src/substack_mcp.py:259-275): a provided category
whose lowercase form is a known key selects the list of that category truncated
to `limit`; otherwise all categories are merged, de-duplicated and
truncated, with the header depending on whether a category was provided. -/
def discoverCore (category : Option String) (limit : Nat) :
    String × List String :=
  if pyTruthyStr category && categoriesKeys.contains (pyLower (category.getD "")) then
    ("Popular " ++ category.getD "" ++ " newsletters on Substack:\n\n",
     (lookupCategory (pyLower (category.getD ""))).take limit)
  else
    ((if pyTruthyStr category then notFoundMsg (category.getD "")
      else "Popular newsletters on Substack:\n\n"),
     (dictFromKeys [] allCategoryNewsletters).take limit)

/-- `discover_popular_substacks` (src/substack_mcp.py:209-284) as a state
transformer: choose the list and header, overwrite the cache with the list
(src/substack_mcp.py:278), and append the numbered listing. -/
def discover_popular_substacks (category : Option String) (limit : Nat)
    (st : CacheFile) : String × CacheFile :=
  let (header, newsletters) := discoverCore category limit
  (header ++ formatNumbered 1 newsletters,
   save_newsletter_cache newsletters st)

/-- A concrete client for instantiations: newsletter A yields one post,
newsletter B raises, newsletter C yields one post. -/
def demoClient : SearchClient := fun url _q _lim =>
  if url == "https://a.example" then
    Except.ok [⟨some "TA", some "DA", "https://a.example/p1"⟩]
  else if url == "https://b.example" then Except.error "boom"
  else Except.ok [⟨some "TC", none, "https://c.example/p1"⟩]

/-- A concrete client for instantiations: every search succeeds with zero
matches. -/
def emptyClient : SearchClient := fun _ _ _ => Except.ok []

/-! ## Theorems -/

/-- The fan-out compiles to the selection filtered to newsletters with a
non-empty per-newsletter result, each paired with its own result list. -/
theorem fanOutResults_eq (client : SearchClient) (q : String) (rpn : Nat)
    (sel : List String) :
    fanOutResults client q sel rpn =
      (sel.filter
          (fun u => !(search_single_newsletter client u q rpn).isEmpty)).map
        (fun u => (u, search_single_newsletter client u q rpn)) := by
  induction sel with
  | nil => rfl
  | cons x xs ih =>
    simp only [fanOutResults, combineResults, List.map_cons, List.zip_cons_cons,
      List.filter_cons] at ih ⊢
    cases h : (search_single_newsletter client x q rpn).isEmpty <;>
      simp [h, ih]

/-- Claim C1: for every call to `search_across_substacks`, the selected
newsletter sequence is the first `max_newsletters` entries of the source
list chosen by strict priority — a provided non-empty explicit list, else
the hard-coded popular list when `popular_only` is true, else the cached
list when non-empty, else the popular list — hence it has length at most
`max_newsletters` and preserves the order of the chosen source. -/
theorem search_selection_policy (newsletters : Option (List String))
    (popular_only : Bool) (m : Nat) (st : CacheFile) :
    searchSelection newsletters popular_only m st =
      (if pyTruthyList newsletters then newsletters.getD []
       else if popular_only then POPULAR_NEWSLETTERS
       else if (asStringList (load_newsletter_cache st)).isEmpty then
         POPULAR_NEWSLETTERS
       else asStringList (load_newsletter_cache st)).take m ∧
    (searchSelection newsletters popular_only m st).length ≤ m := by
  constructor
  · unfold searchSelection selectNewsletters
    split_ifs <;> rfl
  · unfold searchSelection selectNewsletters
    split_ifs <;> simp [List.length_take]

/-- Claim C2: in a fan-out over `[A, B, C]` where the search of B raises
and A and C each return one match, the combined result is exactly the entry
of A followed by the entry of C, with B omitted; the exception of B does
not abort the other searches or the aggregate call, which returns the
formatted two-newsletter result. -/
theorem fanout_error_isolated (client : SearchClient) (q A B C e : String)
    (rpn : Nat) (pa pc : RawPost)
    (hA : client A q rpn = Except.ok [pa])
    (hB : client B q rpn = Except.error e)
    (hC : client C q rpn = Except.ok [pc]) :
    fanOutResults client q [A, B, C] rpn =
      [(A, [postEntry pa]), (C, [postEntry pc])] ∧
    ∀ st : CacheFile,
      (search_across_substacks client q (some [A, B, C]) 3 rpn false st).1 =
        searchHeader q 2 ++ formatGroups [(A, [postEntry pa]), (C, [postEntry pc])] := by
  have hfan : fanOutResults client q [A, B, C] rpn =
      [(A, [postEntry pa]), (C, [postEntry pc])] := by
    simp [fanOutResults, combineResults, search_single_newsletter, hA, hB, hC]
  refine ⟨hfan, fun st => ?_⟩
  have hsel : searchSelection (some [A, B, C]) false 3 st = [A, B, C] := rfl
  simp only [search_across_substacks, hsel, hfan]
  rfl

/-- Witness for claim C2 at a concrete client where the middle newsletter
raises. -/
theorem fanout_error_isolated_witness :
    demoClient "https://b.example" "rust" 3 = Except.error "boom" ∧
    fanOutResults demoClient "rust"
        ["https://a.example", "https://b.example", "https://c.example"] 3 =
      [("https://a.example", [("TA", "DA", "https://a.example/p1")]),
       ("https://c.example", [("TC", "Unknown date", "https://c.example/p1")])] :=
  ⟨rfl,
   (fanout_error_isolated demoClient "rust" "https://a.example" "https://b.example"
      "https://c.example" "boom" 3 ⟨some "TA", some "DA", "https://a.example/p1"⟩
      ⟨some "TC", none, "https://c.example/p1"⟩ rfl rfl rfl).1⟩

/-- Claim C3: for every fan-out search, the grouped output is the selection
in order, restricted to newsletters with a non-empty result and paired with
their own results — so grouping order equals selection order (the gather
step is order-preserving irrespective of completion order) and a newsletter
contributing zero results is omitted entirely. -/
theorem fanout_order_preserved (client : SearchClient) (q : String)
    (sel : List String) (rpn : Nat) :
    fanOutResults client q sel rpn =
      (sel.filter
          (fun u => !(search_single_newsletter client u q rpn).isEmpty)).map
        (fun u => (u, search_single_newsletter client u q rpn)) :=
  fanOutResults_eq client q rpn sel

/-- Claim C4: when every selected newsletter returns zero matches, the
aggregate result is the distinct no-results message rather than an empty
grouped listing. -/
theorem fanout_all_empty_no_results (client : SearchClient) (q : String)
    (newsletters : Option (List String)) (m rpn : Nat) (po : Bool) (st : CacheFile)
    (h : ∀ u ∈ searchSelection newsletters po m st,
        search_single_newsletter client u q rpn = []) :
    (search_across_substacks client q newsletters m rpn po st).1 = noResultsMsg q := by
  have hfil : (searchSelection newsletters po m st).filter
      (fun u => !(search_single_newsletter client u q rpn).isEmpty) = [] := by
    rw [List.filter_eq_nil_iff]
    intro u hu
    simp [h u hu]
  have hc : fanOutResults client q (searchSelection newsletters po m st) rpn = [] := by
    rw [fanOutResults_eq, hfil]
    rfl
  simp [search_across_substacks, hc]

/-- Witness for claim C4 at a concrete client that always returns zero
matches. -/
theorem fanout_all_empty_no_results_witness :
    (∀ u ∈ searchSelection (some ["https://a.example"]) false 5 CacheFile.absent,
        search_single_newsletter emptyClient u "rust" 3 = []) ∧
    (search_across_substacks emptyClient "rust" (some ["https://a.example"]) 5 3 false
        CacheFile.absent).1 = noResultsMsg "rust" :=
  ⟨by decide,
   fanout_all_empty_no_results emptyClient "rust" (some ["https://a.example"]) 5 3 false
     CacheFile.absent (by decide)⟩

/-- Claim C5: `load_newsletter_cache` on a missing file and on a file whose
content fails to parse returns the empty sequence in both cases; being a
total function of the cache state, it never raises. -/
theorem load_cache_total_fallback (raw : String) :
    load_newsletter_cache CacheFile.absent = PyJson.strList [] ∧
    load_newsletter_cache (CacheFile.corrupt raw) = PyJson.strList [] :=
  ⟨rfl, rfl⟩

/-- Claim C6: saving a list of newsletter identifiers and then loading
returns that same list, whatever the prior cache state (round-trip law,
sequential composition). -/
theorem save_load_roundtrip (L : List String) (st : CacheFile) :
    load_newsletter_cache (save_newsletter_cache L st) = PyJson.strList L := rfl

/-- Claim C7: `discover_popular_substacks` with category `technology` and
limit 3 selects exactly the first 3 entries of the technology category
list, returns them in its listing, and afterwards the cache loads as those
same 3 entries. -/
theorem discover_technology_three (st : CacheFile) :
    (discoverCore (some "technology") 3).2 =
      ["https://stratechery.com", "https://www.platformer.news",
       "https://newsletter.pragmaticengineer.com"] ∧
    (discover_popular_substacks (some "technology") 3 st).1 =
      "Popular technology newsletters on Substack:\n\n" ++
        formatNumbered 1
          ["https://stratechery.com", "https://www.platformer.news",
           "https://newsletter.pragmaticengineer.com"] ∧
    load_newsletter_cache ((discover_popular_substacks (some "technology") 3 st).2) =
      PyJson.strList
        ["https://stratechery.com", "https://www.platformer.news",
         "https://newsletter.pragmaticengineer.com"] :=
  ⟨rfl, rfl, rfl⟩

/-- Counterexample to claim C8 as stated: the category `TECHNOLOGY` is not
in the known category set, yet discovery returns the technology list (5
entries, not the de-duplicated merge truncated to 10) under a header
`Popular TECHNOLOGY newsletters ...`, not the category-not-found message:
the membership test is on the lowercased category. -/
theorem discover_unknown_category_cex :
    "TECHNOLOGY" ∉ categoriesKeys ∧
    (discoverCore (some "TECHNOLOGY") 10).2 ≠
      (dictFromKeys [] allCategoryNewsletters).take 10 ∧
    (discover_popular_substacks (some "TECHNOLOGY") 10 CacheFile.absent).1 ≠
      notFoundMsg "TECHNOLOGY" ++
        formatNumbered 1 ((dictFromKeys [] allCategoryNewsletters).take 10) :=
  ⟨by decide, by decide, by decide⟩

/-- Claim C8 (amended): `discover_popular_substacks` called with a
non-empty category whose lowercase form is not in the known category set
returns the de-duplicated concatenation of the newsletter lists of all
categories truncated to `limit`, prefixed by a message noting the category
was not found. -/
theorem discover_unknown_category (category : String) (limit : Nat) (st : CacheFile)
    (hne : category ≠ "")
    (hnk : pyLower category ∉ categoriesKeys) :
    (discoverCore (some category) limit).2 =
      (dictFromKeys [] allCategoryNewsletters).take limit ∧
    (discover_popular_substacks (some category) limit st).1 =
      notFoundMsg category ++
        formatNumbered 1 ((dictFromKeys [] allCategoryNewsletters).take limit) := by
  have ht : pyTruthyStr (some category) = true := by
    simp [pyTruthyStr, hne]
  have hcont : categoriesKeys.contains (pyLower category) = false := by
    simpa using hnk
  constructor
  · simp [discoverCore, ht, hcont, hnk]
  · simp [discover_popular_substacks, discoverCore, ht, hcont, hnk]

/-- Witness for claim C8 (amended) at the category `nonexistent`. -/
theorem discover_unknown_category_witness :
    ("nonexistent" ≠ ("" : String)) ∧ pyLower "nonexistent" ∉ categoriesKeys ∧
    (discover_popular_substacks (some "nonexistent") 10 CacheFile.absent).1 =
      notFoundMsg "nonexistent" ++
        formatNumbered 1 ((dictFromKeys [] allCategoryNewsletters).take 10) :=
  ⟨by decide, by decide,
   (discover_unknown_category "nonexistent" 10 CacheFile.absent (by decide)
      (by decide)).2⟩

/-- Claim C9: `search_across_substacks` never writes the cache — the cache
state after every call equals the state before it (only the discovery
operation writes the cache). -/
theorem search_no_cache_write (client : SearchClient) (q : String)
    (newsletters : Option (List String)) (m rpn : Nat) (po : Bool) (st : CacheFile) :
    (search_across_substacks client q newsletters m rpn po st).2 = st := rfl

/-- Claim C10: for every cache-file content that parses, `load` returns the
parsed document unchanged, whether or not it is a list of strings (the
empty-sequence fallback applies only to a missing file or unparsable
content), so callers may receive a non-list value. -/
theorem load_parsed_value_unchanged (v : PyJson) :
    load_newsletter_cache (CacheFile.stored v) = v := rfl

end SubstackMCP
